import Mathlib

/-!
Shallow embedding of the efimon telemetry library (C++), restricted to the
parts needed to settle the frozen claims: the Status code set, the daemon
analyser's system-thread lifecycle, the CSV logger, the RAPL and /proc/stat
observers' trigger bookkeeping, the perf-record active-pid registry, the
IPMI power observer construction, and the perf-annotate parser together
with the x86 assembly classifier.

Modelling conventions:
  * C++ `float`/`double` values are modelled as exact rationals.
  * `uint64_t` timestamps are modelled as naturals; the subtractions
    performed by the code (`time - timestamp`) never wrap because the
    stored timestamp is always an earlier uptime sample, so natural
    subtraction coincides with the machine subtraction on all reachable
    states considered here.
  * Fallible constructors (which throw `Status` in C++) return
    `Except EStatus _`.
  * `std::unordered_map` iteration order is unspecified by C++; wherever
    the code iterates such a map the embedding takes the iteration order
    as an explicit parameter constrained to be a permutation of the keys.
-/

namespace Efimon

/-- Status error-code kinds, mirroring the anonymous enum in
`include/efimon/status.hpp` (OK = 0 through ACCESS_DENIED). -/
inductive StatusKind where
  | ok
  | fileError
  | invalidParameter
  | incompatibleParameter
  | configurationError
  | registerIoError
  | notImplemented
  | memberAbsent
  | resourceBusy
  | notFound
  | loggerCannotOpen
  | loggerCannotInsert
  | notReady
  | accessDenied
  deriving DecidableEq, Repr, Inhabited

/-- Integer value of each Status enum member, by its position in the
enumeration of `include/efimon/status.hpp` (OK = 0, FILE_ERROR = 1, ...). -/
def StatusKind.code : StatusKind → Nat
  | .ok => 0
  | .fileError => 1
  | .invalidParameter => 2
  | .incompatibleParameter => 3
  | .configurationError => 4
  | .registerIoError => 5
  | .notImplemented => 6
  | .memberAbsent => 7
  | .resourceBusy => 8
  | .notFound => 9
  | .loggerCannotOpen => 10
  | .loggerCannotInsert => 11
  | .notReady => 12
  | .accessDenied => 13

/-- Status value: a code plus a human-readable message
(`efimon::Status`). -/
structure EStatus where
  kind : StatusKind
  msg : String
  deriving DecidableEq, Repr, Inhabited

/-- Default-constructed `Status`: code OK, empty message. -/
def EStatus.okStatus : EStatus := ⟨StatusKind.ok, ""⟩

/-! ## Daemon analyser: system-collector thread lifecycle
Embedding of `EfimonAnalyser::StartSystemThread` / `StopSystemThread`
(`src/tools/efimon-daemon/efimon-analyser.cpp`). Only the `sys_thread_`
null test matters for the control flow; the spawned thread itself is an
external effect. -/

/-- Analyser state restricted to the system-thread handle:
`sysThread = true` models `sys_thread_ != nullptr`. -/
structure AnalyserState where
  sysThread : Bool
  deriving DecidableEq, Repr

/-- Embeds `EfimonAnalyser::StartSystemThread`: fails with RESOURCE_BUSY
when the thread handle is already set, otherwise starts the thread. -/
def startSystemThread (s : AnalyserState) : EStatus × AnalyserState :=
  if s.sysThread then
    (⟨StatusKind.resourceBusy, "The thread has already started"⟩, s)
  else
    (EStatus.okStatus, ⟨true⟩)

/-- Embeds `EfimonAnalyser::StopSystemThread`: fails with NOT_FOUND when
the thread handle is null, otherwise joins and clears it. -/
def stopSystemThread (s : AnalyserState) : EStatus × AnalyserState :=
  if !s.sysThread then
    (⟨StatusKind.notFound, "The thread was not running"⟩, s)
  else
    (EStatus.okStatus, ⟨false⟩)

/-! ## CSV logger
Embedding of `CSVLogger` (`src/efimon/logger/csv.cpp`,
`include/efimon/logger/csv.hpp`). The schema member `table_map_` is a
`std::unordered_map<std::string, FieldType>`; its content is modelled as
an association list in insertion order and its (unspecified) iteration
order as a separate list `iter` constrained by `validIterOrder`. -/

/-- Field types of the logger schema (`Logger::FieldType`). -/
inductive FieldType where
  | none
  | integer64
  | float
  | string
  deriving DecidableEq, Repr

/-- Dynamic logger value (`Logger::Value<T>`); the constructor of
`Logger::Value` always sets the type tag matching the payload, so the
embedding merges tag and payload into one constructor each. -/
inductive LogValue where
  | int64 (v : Int)
  | float (v : ℚ)
  | str (v : String)
  deriving DecidableEq, Repr

/-- Association-list lookup used to model map `find`/`at`. -/
def alistFind {κ α : Type} [DecidableEq κ] (k : κ) :
    List (κ × α) → Option α
  | [] => Option.none
  | (k2, v) :: rest => if k2 = k then some v else alistFind k rest

/-- Insertion into an `unordered_map` modelled content-wise: overwrite the
mapped value when the key is present, otherwise add the new pair. -/
def mapInsert {κ α : Type} [DecidableEq κ] (m : List (κ × α))
    (kv : κ × α) : List (κ × α) :=
  match m with
  | [] => [kv]
  | (k2, v) :: rest =>
    if k2 = kv.fst then (k2, kv.snd) :: rest
    else (k2, v) :: mapInsert rest kv

/-- Content of `table_map_` after the constructor loop
`for field in fields: table_map_[name] = type`. -/
def mkTable (fields : List (String × FieldType)) :
    List (String × FieldType) :=
  fields.foldl mapInsert []

/-- Decimal rendering of the fractional part of a rational scaled to six
digits, used by the `std::to_string(float)` model. -/
def fracSixDigits (q : ℚ) : Nat :=
  (q * 1000000).floor.toNat % 1000000

/-- Model of `std::to_string` on a non-negative float: fixed notation with
six fractional digits (C++ `%f`). Ties and negative zero cannot arise from
the rational inputs used here. -/
def floatToStringAbs (q : ℚ) : String :=
  let scaled : Int := (q * 1000000 + 1/2).floor
  let ip : Nat := scaled.toNat / 1000000
  let fp : Nat := scaled.toNat % 1000000
  let fps : String := toString fp
  let pad : String := String.mk (List.replicate (6 - fps.length) '0')
  toString ip ++ "." ++ pad ++ fps

/-- Model of `std::to_string(float)`: sign then fixed six-digit rendering. -/
def floatToString (q : ℚ) : String :=
  if q < 0 then "-" ++ floatToStringAbs (-q) else floatToStringAbs q

/-- Embeds `CSVLogger::Stringify`. In C++ it switches on the value's own
type tag and dynamic-casts; the cast always succeeds in the embedding
because the tag is fused with the payload. -/
def stringify : LogValue → String
  | .int64 v => toString v
  | .float v => floatToString v
  | .str v => v

/-- Iteration order `iter` is a valid `unordered_map` traversal of `table`
when it is a permutation of the stored keys. -/
def validIterOrder (table : List (String × FieldType))
    (iter : List String) : Prop :=
  iter.Perm (table.map Prod.fst)

/-- Header line written by the `CSVLogger` constructor: `ID` then each
field name of `table_map_` in iteration order, comma-separated. -/
def csvHeaderLine (iter : List String) : String :=
  "ID" ++ String.join (iter.map (fun f => "," ++ f))

/-- One cell of an inserted row: the stringified value when the row map
contains the field, the empty string otherwise. -/
def csvCell (vals : List (String × LogValue)) (f : String) : String :=
  match alistFind f vals with
  | some v => stringify v
  | Option.none => ""

/-- Data row written by `CSVLogger::InsertRow`: the current `last_id_`,
then one cell per `table_map_` entry in iteration order. -/
def csvRowLine (id : Nat) (iter : List String)
    (vals : List (String × LogValue)) : String :=
  toString id ++ String.join (iter.map (fun f => "," ++ csvCell vals f))

/-- CSV logger state: schema content, fixed map-iteration order, file-open
flag, auto-increment counter and the lines written so far. -/
structure CSVLoggerState where
  table : List (String × FieldType)
  iter : List String
  fileOpen : Bool
  lastId : Nat
  out : List String
  deriving DecidableEq, Repr

/-- Embeds the `CSVLogger` constructor on a successfully opened file:
builds `table_map_`, fixes an iteration order and writes the header row.
(When the file cannot be opened the constructor throws LOGGER_CANNOT_OPEN
before writing anything; that path carries no further state.) -/
def mkCSVLogger (fields : List (String × FieldType))
    (iter : List String) : CSVLoggerState :=
  { table := mkTable fields
    iter := iter
    fileOpen := true
    lastId := 0
    out := [csvHeaderLine iter] }

/-- Embeds `CSVLogger::InsertRow`: LOGGER_CANNOT_INSERT when the file is
not open; otherwise writes the row, bumps `last_id_` and returns OK, with
the message set exactly when the row-map size differs from the schema
size. -/
def insertRow (s : CSVLoggerState) (vals : List (String × LogValue)) :
    EStatus × CSVLoggerState :=
  if !s.fileOpen then
    (⟨StatusKind.loggerCannotInsert,
      "Cannot insert since the file is not opened"⟩, s)
  else
    (if vals.length = s.table.length then EStatus.okStatus
     else ⟨StatusKind.ok, "Not all the fields were present"⟩,
     { s with
       lastId := s.lastId + 1
       out := s.out ++ [csvRowLine s.lastId s.iter vals] })

/-! ## RAPL (powercap) observer
Embedding of `RAPLMeterObserver` (`src/efimon/power/rapl.cpp`). The sysfs
energy counters are an environment `energies : Nat → Option ℚ` giving the
current joule value per socket (`none` models an unopenable file). -/

/-- The common part of a CPU reading relevant here
(`include/efimon/readings.hpp`): monotonic timestamp, delta, overall and
per-socket power. -/
structure CPUPowerReadings where
  timestamp : Nat
  difference : Nat
  overallPower : ℚ
  socketPower : List ℚ
  deriving DecidableEq, Repr, Inhabited

/-- State of a `RAPLMeterObserver`: before/after per-socket meters, the
`valid_` flag, the selected device and the socket count from topology. -/
structure RaplState where
  numSockets : Nat
  device : Nat
  valid : Bool
  beforeMeters : List ℚ
  afterMeters : List ℚ
  readings : CPUPowerReadings
  deriving DecidableEq, Repr, Inhabited

/-- Model of `std::vector::resize(n, 0.f)`: truncate or pad with zeros;
existing entries are preserved. -/
def listResize (l : List ℚ) (n : Nat) : List ℚ :=
  l.take n ++ List.replicate (n - l.length) 0

/-- Embeds `RAPLMeterObserver::Reset`: zeroes the reading's timestamps and
power vector (clear then resize) and resizes the before/after meters,
which keeps their existing entries; the `valid_` flag is not touched by
`Reset`. -/
def raplReset (s : RaplState) : RaplState :=
  { s with
    beforeMeters := listResize s.beforeMeters s.numSockets
    afterMeters := listResize s.afterMeters s.numSockets
    readings :=
      { timestamp := 0
        difference := 0
        overallPower := 0
        socketPower := List.replicate s.numSockets 0 } }

/-- Embeds `RAPLMeterObserver::GetSocketConsumption` for one socket: on
the first pass (`valid_ = false`) both meters take the fresh counter; on
later passes the meters swap and `after` takes the fresh counter. An
unopenable counter file (environment `none`) leaves the meters unchanged
(the NOT_FOUND status it returns is discarded by `Trigger`). -/
def raplGetSocketConsumption (energies : Nat → Option ℚ) (sid : Nat)
    (s : RaplState) : RaplState :=
  match energies sid with
  | Option.none => s
  | some e =>
    if !s.valid then
      { s with
        beforeMeters := s.beforeMeters.set sid e
        afterMeters := s.afterMeters.set sid e }
    else
      { s with
        beforeMeters := s.afterMeters
        afterMeters := s.beforeMeters.set sid e }

/-- Embeds `RAPLMeterObserver::ParseResults`: reports the after-before
energy delta of a socket and accumulates the overall sum. -/
def raplParseResults (sid : Nat) (s : RaplState) : RaplState :=
  let val := s.afterMeters.getD sid 0 - s.beforeMeters.getD sid 0
  { s with
    readings :=
      { s.readings with
        socketPower := s.readings.socketPower.set sid val
        overallPower := s.readings.overallPower + val } }

/-- Embeds the per-socket loop of `RAPLMeterObserver::Trigger`. -/
def raplScanSockets (energies : Nat → Option ℚ) (s : RaplState) :
    Nat → RaplState
  | 0 => s
  | n + 1 =>
    raplParseResults n
      (raplGetSocketConsumption energies n (raplScanSockets energies s n))

/-- Embeds `RAPLMeterObserver::Trigger` at uptime `time`: stamps
difference and timestamp, zeroes the overall power, then reads either the
selected socket or every socket, and marks the observer valid. -/
def raplTrigger (energies : Nat → Option ℚ) (time : Nat)
    (s : RaplState) : RaplState :=
  let s1 :=
    { s with
      readings :=
        { s.readings with
          difference := time - s.readings.timestamp
          timestamp := time
          overallPower := 0 } }
  if s1.device < s1.numSockets then
    { raplParseResults s1.device
        (raplGetSocketConsumption energies s1.device s1) with valid := true }
  else
    { raplScanSockets energies s1 s1.numSockets with valid := true }

/-! ## Process-scope /proc/pid/stat observer
Embedding of `ProcStatObserver` for PROCESS scope
(`src/efimon/proc/stat.cpp`). The parsed pseudo-file content and the
`sysconf` constants are explicit inputs. -/

/-- Fields of `/proc/<pid>/stat` kept by `GetProcStat`, plus the running
`total`/`active` accumulators of `ProcStatData`. -/
structure ProcStatData where
  state : Char
  utime : Nat
  stime : Nat
  cutime : Nat
  cstime : Nat
  starttime : Nat
  vsize : Nat
  rss : Nat
  total : Nat
  active : Nat
  deriving DecidableEq, Repr, Inhabited

/-- CPU reading fields touched by `TranslateReadings`. -/
structure ProcCpuReadings where
  timestamp : Nat
  difference : Nat
  overallUsage : ℚ
  overallPower : ℚ
  coreUsage : List ℚ
  corePower : List ℚ
  deriving DecidableEq, Repr, Inhabited

/-- RAM reading fields touched by `TranslateReadings`. -/
structure ProcRamReadings where
  timestamp : Nat
  difference : Nat
  overallUsage : ℚ
  totalMemoryUsage : ℚ
  swapUsage : ℚ
  overallPower : ℚ
  overallBw : ℚ
  deriving DecidableEq, Repr, Inhabited

/-- Host constants read through `sysconf`. -/
structure SysConf where
  clkTck : Nat
  nProcessors : Nat
  pageSize : Nat
  deriving DecidableEq, Repr, Inhabited

/-- State of the process-scope observer portion exercised by a trigger. -/
structure ProcStatState where
  procData : ProcStatData
  cpuReadings : ProcCpuReadings
  ramReadings : ProcRamReadings
  deriving DecidableEq, Repr, Inhabited

/-- Embeds `ProcStatObserver::TranslateReadings` at the given uptime: time
stamps always update; a process in stopped-in-trap or dead state then
aborts before any usage or RAM field is recomputed. -/
def translateReadings (sc : SysConf) (uptime : Nat) (s : ProcStatState) :
    ProcStatState :=
  let diffTime := uptime - s.cpuReadings.timestamp
  let cpu1 :=
    { s.cpuReadings with difference := diffTime, timestamp := uptime }
  let ram1 :=
    { s.ramReadings with difference := diffTime, timestamp := uptime }
  let total := uptime - s.procData.starttime
  let active :=
    (s.procData.utime + s.procData.stime + s.procData.cutime +
      s.procData.cstime) * 1000 / sc.clkTck
  if s.procData.state = 'T' ∨ s.procData.state = 'X' then
    { s with cpuReadings := cpu1, ramReadings := ram1 }
  else
    let diffTotal := total - s.procData.total
    let diffActive := active - s.procData.active
    let warmup := s.procData.total = 0 ∨ diffTotal = 0
    let totalUsage : ℚ := 100 * (diffActive : ℚ) / (diffTotal : ℚ)
    { procData := { s.procData with total := total, active := active }
      cpuReadings :=
        { cpu1 with
          overallUsage :=
            if warmup then 0 else totalUsage / (sc.nProcessors : ℚ)
          overallPower := -1
          coreUsage := List.replicate sc.nProcessors (-1)
          corePower := List.replicate sc.nProcessors (-1) }
      ramReadings :=
        { ram1 with
          overallUsage := ((s.procData.rss * sc.pageSize) >>> 20 : Nat)
          totalMemoryUsage := (s.procData.vsize >>> 20 : Nat)
          swapUsage :=
            ((s.procData.vsize >>> 20 : Nat) : ℚ) -
              (((s.procData.rss * sc.pageSize) >>> 20 : Nat) : ℚ)
          overallPower := -1
          overallBw := -1 } }

/-- Embeds the PROCESS-scope path of `ProcStatObserver::Trigger` for a
live process: refresh the uptime, take the freshly parsed stat fields and
translate them. (`CheckAlive` failing returns early and is not part of
the claims under study.) -/
def procStatTrigger (sc : SysConf) (uptime : Nat) (parsed : ProcStatData)
    (s : ProcStatState) : ProcStatState :=
  translateReadings sc uptime
    { s with
      procData :=
        { parsed with
          total := s.procData.total
          active := s.procData.active } }

/-- Embeds `ProcStatObserver::Reset` on the fields modelled here. -/
def procStatReset (s : ProcStatState) : ProcStatState :=
  { procData :=
      { state := Char.ofNat 0, utime := 0, stime := 0, cutime := 0,
        cstime := 0, starttime := 0, vsize := 0, rss := 0, total := 0,
        active := 0 }
    cpuReadings :=
      { s.cpuReadings with
        timestamp := 0, difference := 0, overallUsage := 0,
        overallPower := 0, coreUsage := [], corePower := [] }
    ramReadings :=
      { s.ramReadings with
        timestamp := 0, difference := 0, overallUsage := 0,
        overallBw := 0, overallPower := 0 } }

/-! ## Shared text helpers
Models of the C++ string and stream primitives used by the observers:
`std::string::find`, `std::string::substr`, `istream` float and token
extraction, and `size_t` wrap-around arithmetic. -/

/-- Observer scope (`ObserverScope`). -/
inductive ObsScope where
  | process
  | system
  deriving DecidableEq, Repr

/-- Wrapped `size_t` subtraction: `a - b` modulo `2 ^ 64`. The IPMI parser
relies on the underflowed (huge) value acting like `npos`. -/
def sizeTSub (a b : Nat) : Nat :=
  (((a : Int) - (b : Int)) % ((2 : Int) ^ 64)).toNat

/-- First index at which `pat` occurs in `cs`, as `std::string::find`. -/
def findSubAux (pat : List Char) : List Char → Option Nat
  | [] => if pat = [] then some 0 else Option.none
  | c :: rest =>
    if pat.isPrefixOf (c :: rest) then some 0
    else (findSubAux pat rest).map (· + 1)

/-- Model of `std::string::find` returning an option instead of `npos`. -/
def strFind (s pat : String) : Option Nat :=
  findSubAux pat.data s.data

/-- Containment test derived from `strFind`. -/
def strContains (s pat : String) : Bool :=
  (strFind s pat).isSome

/-- Model of `std::string::substr(pos, count)` for in-range `pos`; a count
at least the remaining length (e.g. an underflowed `size_t`) takes the
rest of the string. -/
def strSubstr (s : String) (pos count : Nat) : String :=
  String.mk ((s.data.drop pos).take count)

/-- Model of `std::string::substr(pos)`. -/
def strSubstrFrom (s : String) (pos : Nat) : String :=
  String.mk (s.data.drop pos)

/-- Numeric value of a digit run. -/
def digitsVal (ds : List Char) : Nat :=
  ds.foldl (fun acc c => acc * 10 + (c.toNat - 48)) 0

/-- Parses an unsigned decimal (digits, optional dot, digits) from the
head of the character list; fails without at least one digit. Exponent
and hexfloat forms accepted by `std::num_get` are not modelled: they do
not occur in the profiler output considered here. -/
def parseUnsignedQ (cs : List Char) : Option (ℚ × List Char) :=
  let ds := cs.takeWhile Char.isDigit
  let rest := cs.dropWhile Char.isDigit
  match rest with
  | '.' :: r2 =>
    let fs := r2.takeWhile Char.isDigit
    if ds.isEmpty ∧ fs.isEmpty then Option.none
    else
      some (mkRat (digitsVal ds * 10 ^ fs.length + digitsVal fs)
          (10 ^ fs.length),
        r2.dropWhile Char.isDigit)
  | _ =>
    if ds.isEmpty then Option.none
    else some (mkRat (digitsVal ds) 1, rest)

/-- Model of `istream >> float`: skip whitespace, optional sign, then an
unsigned decimal. Returns the value and the unread remainder; `none`
models the fail state. -/
def extractFloatQ (cs : List Char) : Option (ℚ × List Char) :=
  let cs1 := cs.dropWhile Char.isWhitespace
  match cs1 with
  | '-' :: r => (parseUnsignedQ r).map (fun p => (-p.fst, p.snd))
  | '+' :: r => parseUnsignedQ r
  | _ => parseUnsignedQ cs1

/-- Model of `istream >> std::string`: skip whitespace then take the next
whitespace-free run; an exhausted stream yields the empty token. -/
def extractToken (cs : List Char) : String × List Char :=
  let cs1 := cs.dropWhile Char.isWhitespace
  (String.mk (cs1.takeWhile (fun c => !c.isWhitespace)),
    cs1.dropWhile (fun c => !c.isWhitespace))

/-! ## Perf record observer
Embedding of `PerfRecordObserver` (`src/efimon/perf/record.cpp`). The
process-wide `active_pids_` vector is threaded explicitly; process
liveness (`/proc/<pid>/io` readability) is an environment predicate. -/

/-- Record reading (`include/efimon/perf/record-readings.hpp` fields used
here). -/
structure RecordReadings where
  timestamp : Nat
  difference : Nat
  perfDataPath : String
  deriving DecidableEq, Repr, Inhabited

/-- State of a `PerfRecordObserver`. -/
structure PerfRecordState where
  pid : Nat
  interval : Nat
  frequency : Nat
  noDispose : Bool
  valid : Bool
  tmpFolderPath : Option String
  perfCmd : Option String
  pathToPerfData : String
  statusVal : EStatus
  readings : RecordReadings
  deriving DecidableEq, Repr, Inhabited

/-- Embeds `PerfRecordObserver::CreateTemporaryFolder`: the directory
`efimon-<pid>` under the system temp root. -/
def perfTmpFolder (pid : Nat) : String :=
  "/tmp/efimon-" ++ toString pid

/-- Embeds `PerfRecordObserver::MakePerfCommand`. -/
def makePerfCommand (folder : String) (frequency pid interval : Nat) :
    String :=
  "cd " ++ folder ++ " && perf record -e instructions -q -F" ++
    toString frequency ++ " -g -v -p " ++ toString pid ++ " -a sleep " ++
    toString interval

/-- Embeds the `PerfRecordObserver` constructor. `alive pid` models
whether `/proc/<pid>/io` can be opened; `reg` is the process-wide
`active_pids_` set, returned updated on success. -/
def mkPerfRecordObserver (pid : Nat) (scope : ObsScope)
    (interval frequency : Nat) (noDispose : Bool) (alive : Nat → Bool)
    (reg : List Nat) : Except EStatus (PerfRecordState × List Nat) :=
  if scope ≠ ObsScope.process then
    Except.error ⟨StatusKind.invalidParameter, "System-scope is not supported"⟩
  else
    let base : PerfRecordState :=
      { pid := pid
        interval := if interval = 0 then 1000 else interval
        frequency := if frequency = 0 then 1000 else frequency
        noDispose := noDispose
        valid := false
        tmpFolderPath := Option.none
        perfCmd := Option.none
        pathToPerfData := ""
        statusVal := EStatus.okStatus
        readings := { timestamp := 0, difference := 0, perfDataPath := "" } }
    if pid = 0 then Except.ok (base, reg)
    else if !alive pid then
      Except.error ⟨StatusKind.notFound, "Cannot check that PID is alive"⟩
    else if pid ∈ reg then
      Except.error ⟨StatusKind.resourceBusy,
        "The PID is already being tracked by perf record"⟩
    else
      Except.ok
        ({ base with
           statusVal := ⟨StatusKind.ok, "OK"⟩
           tmpFolderPath := some (perfTmpFolder pid)
           perfCmd := some (makePerfCommand (perfTmpFolder pid)
             (if frequency = 0 then 1000 else frequency) pid
             (if interval = 0 then 1000 else interval)) },
         reg ++ [pid])

/-- Embeds `PerfRecordObserver::~PerfRecordObserver` as seen by the
process-wide registry: the destructor only disposes the temporary folder
(when `no_dispose` is unset) and never erases the pid from
`active_pids_`. -/
def perfRecordDestruct (_s : PerfRecordState) (reg : List Nat) :
    List Nat :=
  reg

/-- Embeds `PerfRecordObserver::Trigger` at uptime `time`: NOT_READY when
the pid is zero, the liveness status when the process vanished, otherwise
the blocking record window runs, the trace is moved to a locked replica
and the reading is stamped. -/
def perfRecordTrigger (alive : Nat → Bool) (time : Nat)
    (s : PerfRecordState) : EStatus × PerfRecordState :=
  if s.pid = 0 then
    (⟨StatusKind.notReady, "Invalid PID. Assign one"⟩, s)
  else if !alive s.pid then
    let st : EStatus := ⟨StatusKind.notFound, "The process is not available"⟩
    (st, { s with statusVal := st })
  else
    let folder := s.tmpFolderPath.getD ""
    let target := folder ++ "/perf.data.ulock"
    (EStatus.okStatus,
     { s with
       statusVal := ⟨StatusKind.ok, "OK"⟩
       valid := true
       pathToPerfData := target
       readings :=
         { perfDataPath := target
           difference := time - s.readings.timestamp
           timestamp := time } })

/-! ## IPMI power observer construction
Embedding of `IPMIMeterObserver::GetInfo` and the constructor error path
(`src/efimon/power/ipmi.cpp`). The stdout of the vendor info command is
the input line list. -/

/-- Result of scanning the info command output: PSU count and rated
watts. -/
structure IpmiInfo where
  numPsus : Nat
  maxPower : List ℚ
  deriving DecidableEq, Repr

/-- Embeds the per-line parse of `IPMIMeterObserver::GetInfo`: a line
mentioning `Rated Watts` contributes `stof` of the text between the colon
and one short of the `W` (through wrapped `size_t` arithmetic when the
first `W` precedes the colon, which takes the rest of the line). `stof`
failure (which would throw in C++) is modelled as 0; it is unreachable on
the command outputs considered. -/
def ipmiRatedWatts (line : String) : ℚ :=
  let idxColon := (strFind line ": ").getD (sizeTSub 0 1)
  let idxWatts := (strFind line "W").getD (sizeTSub 0 1)
  let start := (idxColon + 2) % 2 ^ 64
  let payload := strSubstr line start (sizeTSub (sizeTSub idxWatts 1) start)
  match extractFloatQ payload.data with
  | some p => p.fst
  | Option.none => 0

/-- Embeds the scan loop of `IPMIMeterObserver::GetInfo` over the info
command output. -/
def ipmiScanInfo (lines : List String) : IpmiInfo :=
  lines.foldl
    (fun acc line =>
      if strContains line "Rated Watts" then
        { numPsus := acc.numPsus + 1
          maxPower := acc.maxPower ++ [ipmiRatedWatts line] }
      else acc)
    { numPsus := 0, maxPower := [] }

/-- Embeds `IPMIMeterObserver::GetInfo`: NOT_FOUND when no PSU line was
seen, OK otherwise. -/
def ipmiGetInfo (lines : List String) : EStatus × IpmiInfo :=
  let info := ipmiScanInfo lines
  (if info.numPsus = 0 then
     ⟨StatusKind.notFound, "Cannot find compatible PSUs"⟩
   else EStatus.okStatus,
   info)

/-- Embeds the `IPMIMeterObserver` constructor up to the point where it
either throws or has gathered the PSU information: a non-SYSTEM scope
throws INVALID_PARAMETER, and any failing `GetInfo` is rethrown as
ACCESS_DENIED. The subsequent reset and initial trigger only touch the
reading buffers, not the information returned here. -/
def mkIPMIMeterObserver (scope : ObsScope) (infoLines : List String) :
    Except EStatus IpmiInfo :=
  if scope ≠ ObsScope.system then
    Except.error ⟨StatusKind.invalidParameter, "Process-scope is not supported"⟩
  else
    let r := ipmiGetInfo infoLines
    if r.fst.kind ≠ StatusKind.ok then
      Except.error ⟨StatusKind.accessDenied, "Cannot get info from IPMI"⟩
    else
      Except.ok r.snd

/-! ## x86 assembly classifier
Embedding of `x86Classifier` (`src/efimon/asm-classifier/x86-classifier.cpp`)
and the enumerations of `include/efimon/asm-classifier.hpp`. -/

/-- Instruction SIMD-ness (`assembly::InstructionType`). -/
inductive IType where
  | scalar
  | vector
  | unclassified
  deriving DecidableEq, Repr

/-- Instruction functional family (`assembly::InstructionFamily`). -/
inductive IFam where
  | arithmetic
  | logic
  | memory
  | branch
  | jump
  | other
  deriving DecidableEq, Repr

/-- Embeds the `classify` lambda of `x86Classifier::OperandTypes`: memory
when a parenthesis occurs, immediate on a dollar sign, register on a
percent sign and unknown otherwise. -/
def x86ClassifyOperand (s : String) : String :=
  if strContains s "(" then "m"
  else if strContains s "$" then "i"
  else if strContains s "%" then "r"
  else "u"

/-- Embeds `x86Classifier::OperandTypes`. -/
def x86OperandTypes (operands : String) : String :=
  let idxMem := strFind operands "),"
  let idxComma := strFind operands ","
  match idxComma with
  | Option.none => "u"
  | some ic =>
    let parts :=
      match idxMem with
      | some im => ("m", "", strSubstrFrom operands (im + 2))
      | Option.none =>
        ("", strSubstr operands 0 ic, strSubstrFrom operands (ic + 1))
    let res1 :=
      if parts.snd.fst ≠ "" then x86ClassifyOperand parts.snd.fst ++ parts.fst
      else parts.fst
    if parts.snd.snd ≠ "" then res1 ++ x86ClassifyOperand parts.snd.snd
    else res1

/-- Arithmetic mnemonic substrings (`kArithOp`). -/
def kArithOp : List String :=
  ["add", "sub", "div", "mul", "dp", "abs", "sign", "avg", "dec", "inc",
    "neg"]

/-- Bit-manipulation mnemonic substrings (`kBitManOp`). -/
def kBitManOp : List String :=
  ["shuf", "lzcn", "cvt", "blend", "perm", "extract", "compress", "insert",
    "unpck"]

/-- Logic mnemonic substrings (`kLogicOp`). -/
def kLogicOp : List String :=
  ["and", "or", "shl", "shr", "sll", "sra", "srl", "tern", "test", "xor",
    "cmp", "not"]

/-- Memory mnemonic substrings (`kMemOp`). -/
def kMemOp : List String :=
  ["expand", "gather", "scatter", "mov", "sto", "lah", "lds", "lea", "les",
    "lod"]

/-- Jump mnemonic substrings (`kJumpOp`). -/
def kJumpOp : List String := ["jmp"]

/-- Branch mnemonic substrings (`kBranchOp`). -/
def kBranchOp : List String :=
  ["ja", "jb", "jc", "je", "jg", "jl", "jle", "jn", "jo", "jp", "js", "jz"]

/-- Embeds the `detorigin` lambda of `x86Classifier::Classify`, using the
numeric values of `assembly::DataOrigin` (memory 1, register 2,
immediate 3, unknown 0). -/
def detOrigin (c : Char) : Nat :=
  if c = 'r' then 2
  else if c = 'm' then 1
  else if c = 'i' then 3
  else 0

/-- Embeds `x86Classifier::Classify` on a mnemonic and its operand-type
string, returning (type, family, packed origin). -/
def x86Classify (inst operands : String) : IType × IFam × Nat :=
  if inst = "" then (IType.unclassified, IFam.other, 0)
  else
    let origin :=
      match operands.data with
      | [o, i] => detOrigin i ||| (detOrigin o <<< 2)
      | [o] => detOrigin o
      | _ => 0
    let hit := fun l : List String => l.any (fun c => strContains inst c)
    let family :=
      if hit kArithOp then IFam.arithmetic
      else if hit kBitManOp then IFam.logic
      else if hit kLogicOp then IFam.logic
      else if hit kMemOp then IFam.memory
      else if hit kJumpOp then IFam.jump
      else if hit kBranchOp then IFam.branch
      else IFam.other
    let computeOp := family = IFam.arithmetic ∨ family = IFam.logic ∨
      family = IFam.memory
    let c0 := (inst.data.headD ' ').toLower
    let ty :=
      if c0 = 'v' ∨ c0 = 'p' then
        if computeOp then IType.vector else IType.unclassified
      else
        if computeOp then IType.scalar else IType.unclassified
    (ty, family, origin)

/-! ## Perf annotate parser
Embedding of `PerfAnnotateObserver::ParseResults`
(`src/efimon/perf/annotate.cpp`), with the x86 classifier attached as in
an x86 build. The input is the line list produced by the annotate
command pipe. -/

/-- Annotate threshold `PERF_ANNOTATE_THRES` (default 0.01). -/
def annThreshold : ℚ := mkRat 1 100

/-- Embeds one iteration of the `ParseResults` line loop up to the
histogram update: extracts the leading float the way
`stringstream >> float` does, skips the line when the stream is not good
afterwards (extraction failed or consumed the entire line) or when the
percent does not exceed the threshold, then drops two tokens and reads
mnemonic and operands. Returns the histogram key, the percent and the
classification triple of a kept line. -/
def parseAnnLine (line : String) :
    Option (String × ℚ × (IType × IFam × Nat)) :=
  match extractFloatQ line.data with
  | Option.none => Option.none
  | some (percent, rest) =>
    if rest = [] then Option.none
    else if percent ≤ annThreshold then Option.none
    else
      let r1 := (extractToken rest).snd
      let r2 := (extractToken r1).snd
      let asmTok := extractToken r2
      let opTok := extractToken asmTok.snd
      let optypes := x86OperandTypes opTok.fst
      let cls := x86Classify asmTok.fst optypes
      some (asmTok.fst ++ "_" ++ optypes, percent, cls)

/-- Upsert into an association list: apply `g` to the stored value, first
inserting the default `d` when the key is absent. This is the effect of
the C++ `map::operator[]` access patterns in `ParseResults`. -/
def updAList {κ α : Type} [DecidableEq κ] (k : κ) (d : α) (g : α → α) :
    List (κ × α) → List (κ × α)
  | [] => [(k, g d)]
  | (k2, v) :: rest =>
    if k2 = k then (k2, g v) :: rest else (k2, v) :: updAList k d g rest

/-- Instruction readings filled by the parser: the mnemonic histogram and
the three-level (type, family, origin) classification
(`include/efimon/readings/instruction-readings.hpp`). -/
structure AnnReadings where
  histogram : List (String × ℚ)
  classification : List (IType × List (IFam × List (Nat × ℚ)))
  deriving DecidableEq, Repr

/-- Embeds one full iteration of the `ParseResults` loop: a kept line adds
its percent to its histogram key and to its classification leaf. -/
def annStep (s : AnnReadings) (line : String) : AnnReadings :=
  match parseAnnLine line with
  | Option.none => s
  | some r =>
    { histogram := updAList r.fst 0 (· + r.snd.fst) s.histogram
      classification :=
        updAList r.snd.snd.fst []
          (updAList r.snd.snd.snd.fst []
            (updAList r.snd.snd.snd.snd 0 (· + r.snd.fst)))
          s.classification }

/-- Embeds `PerfAnnotateObserver::ParseResults` over a whole stream: both
maps are cleared, then the loop runs line by line. -/
def annParseResults (lines : List String) : AnnReadings :=
  lines.foldl annStep { histogram := [], classification := [] }

/-- Kept lines of a stream with their histogram keys and percents. -/
def annKeptLines (lines : List String) : List (String × ℚ) :=
  lines.filterMap (fun l => (parseAnnLine l).map (fun r => (r.fst, r.snd.fst)))

/-- Sum of an association list weighted by a measure of the values. -/
def sumBy {κ α : Type} (h : α → ℚ) (m : List (κ × α)) : ℚ :=
  (m.map (fun e => h e.snd)).sum

/-- Sum of the values of a rational association list. -/
def sumQ {κ : Type} (m : List (κ × ℚ)) : ℚ := sumBy id m

/-- Sum over all leaves of the three-level classification map. -/
def sumClassification
    (m : List (IType × List (IFam × List (Nat × ℚ)))) : ℚ :=
  sumBy (fun fams => sumBy (fun origs => sumQ origs) fams) m

/-- Reading of the claim sentence for the kept-line condition: the leading
whitespace-delimited token of the line parses in full as a number, and the
parsed percent strictly exceeds the threshold. -/
def specKeptLine (line : String) : Bool :=
  match extractFloatQ ((extractToken line.data).fst.data) with
  | some (v, []) => decide (annThreshold < v)
  | _ => false

/-! # Helper lemmas -/

theorem getD_updAList {κ : Type} [DecidableEq κ] (k k2 : κ) (p : ℚ)
    (m : List (κ × ℚ)) :
    (alistFind k (updAList k2 0 (· + p) m)).getD 0 =
      (alistFind k m).getD 0 + (if k2 = k then p else 0) := by
  induction m with
  | nil =>
    by_cases h : k2 = k <;> simp [updAList, alistFind, h]
  | cons e rest ih =>
    obtain ⟨ke, ve⟩ := e
    by_cases h1 : ke = k2
    · subst h1
      by_cases h2 : ke = k <;> simp [updAList, alistFind, h2]
    · by_cases h2 : ke = k
      · subst h2
        have h3 : ¬ k2 = ke := fun hh => h1 hh.symm
        simp [updAList, alistFind, h1, h3]
      · simp [updAList, alistFind, h1, h2, ih]

theorem isSome_updAList {κ α : Type} [DecidableEq κ] (k k2 : κ) (d : α)
    (g : α → α) (m : List (κ × α)) :
    ((alistFind k (updAList k2 d g m)).isSome : Prop) ↔
      (k2 = k ∨ (alistFind k m).isSome) := by
  induction m with
  | nil =>
    by_cases h : k2 = k <;> simp [updAList, alistFind, h]
  | cons e rest ih =>
    obtain ⟨ke, ve⟩ := e
    by_cases h1 : ke = k2
    · subst h1
      by_cases h2 : ke = k <;> simp [updAList, alistFind, h2]
    · by_cases h2 : ke = k
      · subst h2
        have h3 : ¬ k2 = ke := fun hh => h1 hh.symm
        simp [updAList, alistFind, h1, h3]
      · simp [updAList, alistFind, h1, h2, ih]

theorem sumBy_cons {κ α : Type} (h : α → ℚ) (e : κ × α)
    (m : List (κ × α)) : sumBy h (e :: m) = h e.snd + sumBy h m := by
  simp [sumBy]

theorem sumBy_updAList {κ α : Type} [DecidableEq κ] (h : α → ℚ) (k : κ)
    (d : α) (g : α → α) (p : ℚ) (hg : ∀ a, h (g a) = h a + p)
    (hd : h d = 0) (m : List (κ × α)) :
    sumBy h (updAList k d g m) = sumBy h m + p := by
  induction m with
  | nil => simp [updAList, sumBy, hg, hd]
  | cons e rest ih =>
    obtain ⟨ke, ve⟩ := e
    by_cases h1 : ke = k
    · simp only [updAList, h1, if_pos]
      rw [sumBy_cons, sumBy_cons, hg]
      ring
    · simp only [updAList, h1, if_neg, not_false_iff]
      rw [sumBy_cons, sumBy_cons, ih]
      ring

theorem ipmiScanInfoNoPsu (lines : List String)
    (h : ∀ l ∈ lines, strContains l "Rated Watts" = false) :
    ipmiScanInfo lines = { numPsus := 0, maxPower := [] } := by
  unfold ipmiScanInfo
  induction lines with
  | nil => rfl
  | cons l ls ih =>
    have hl := h l (List.mem_cons_self l ls)
    have hls : ∀ x ∈ ls, strContains x "Rated Watts" = false :=
      fun x hx => h x (List.mem_cons_of_mem l hx)
    rw [List.foldl_cons]
    simp only [hl, Bool.false_eq_true, if_false]
    exact ih hls

theorem raplGetSocketConsumption_readings (energies : Nat → Option ℚ)
    (sid : Nat) (s : RaplState) :
    (raplGetSocketConsumption energies sid s).readings = s.readings := by
  unfold raplGetSocketConsumption
  cases energies sid with
  | none => rfl
  | some e => by_cases h : s.valid <;> simp [h]

theorem raplParseResults_stamp (sid : Nat) (s : RaplState) :
    (raplParseResults sid s).readings.timestamp = s.readings.timestamp ∧
      (raplParseResults sid s).readings.difference =
        s.readings.difference := by
  unfold raplParseResults
  exact ⟨rfl, rfl⟩

theorem raplScanSockets_stamp (energies : Nat → Option ℚ) (s : RaplState) :
    ∀ n : Nat,
      (raplScanSockets energies s n).readings.timestamp =
          s.readings.timestamp ∧
        (raplScanSockets energies s n).readings.difference =
          s.readings.difference := by
  intro n
  induction n with
  | zero => exact ⟨rfl, rfl⟩
  | succ n ih =>
    unfold raplScanSockets
    rw [(raplParseResults_stamp _ _).1, (raplParseResults_stamp _ _).2,
      raplGetSocketConsumption_readings]
    exact ih

theorem raplTrigger_stamp (energies : Nat → Option ℚ) (time : Nat)
    (s : RaplState) :
    (raplTrigger energies time s).readings.timestamp = time ∧
      (raplTrigger energies time s).readings.difference =
        time - s.readings.timestamp := by
  unfold raplTrigger
  by_cases h : s.device < s.numSockets
  · simp only [h, if_pos]
    rw [(raplParseResults_stamp _ _).1, (raplParseResults_stamp _ _).2,
      raplGetSocketConsumption_readings]
    exact ⟨rfl, rfl⟩
  · simp only [h, if_neg, not_false_iff]
    rw [(raplScanSockets_stamp _ _ _).1, (raplScanSockets_stamp _ _ _).2]
    exact ⟨rfl, rfl⟩

theorem translateReadings_stamp (sc : SysConf) (uptime : Nat)
    (s : ProcStatState) :
    (translateReadings sc uptime s).cpuReadings.timestamp = uptime ∧
      (translateReadings sc uptime s).cpuReadings.difference =
        uptime - s.cpuReadings.timestamp := by
  unfold translateReadings
  by_cases h : s.procData.state = 'T' ∨ s.procData.state = 'X' <;>
    simp [h]

theorem procStatTrigger_stamp (sc : SysConf) (uptime : Nat)
    (parsed : ProcStatData) (s : ProcStatState) :
    (procStatTrigger sc uptime parsed s).cpuReadings.timestamp = uptime ∧
      (procStatTrigger sc uptime parsed s).cpuReadings.difference =
        uptime - s.cpuReadings.timestamp := by
  unfold procStatTrigger
  exact translateReadings_stamp sc uptime _

theorem strFoldlAppend (xs : List String) :
    ∀ a b : String,
      xs.foldl (fun r s => r ++ s) (a ++ b) =
        a ++ xs.foldl (fun r s => r ++ s) b := by
  induction xs with
  | nil => intro a b; rfl
  | cons x rest ih =>
    intro a b
    rw [List.foldl_cons, List.foldl_cons, String.append_assoc, ih]

theorem strJoinCons (x : String) (xs : List String) :
    String.join (x :: xs) = x ++ String.join xs := by
  show xs.foldl (fun r s => r ++ s) ("" ++ x) = x ++ String.join xs
  rw [show ("" ++ x) = x ++ "" by simp, strFoldlAppend]
  rfl

theorem intercalateGo (s : String) (l : List String) :
    ∀ acc : String,
      String.intercalate.go acc s l =
        acc ++ String.join (l.map (fun c => s ++ c)) := by
  induction l with
  | nil =>
    intro acc
    show acc = acc ++ String.join []
    rw [show String.join [] = "" from rfl, String.append_empty]
  | cons b bs ih =>
    intro acc
    show String.intercalate.go (acc ++ s ++ b) s bs = _
    rw [ih (acc ++ s ++ b), List.map_cons, strJoinCons]
    simp [String.append_assoc]

theorem joinCommaIntercalate (a : String) (l : List String) :
    a ++ String.join (l.map (fun c => "," ++ c)) =
      String.intercalate "," (a :: l) := by
  show _ = String.intercalate.go a "," l
  rw [intercalateGo]

theorem annotateStepSums (s : AnnReadings) (line : String) :
    sumClassification (annStep s line).classification -
        sumQ (annStep s line).histogram =
      sumClassification s.classification - sumQ s.histogram := by
  unfold annStep
  cases hp : parseAnnLine line with
  | none => rfl
  | some r =>
    have hOrig : ∀ m1 : List (Nat × ℚ),
        sumQ (updAList r.snd.snd.snd.snd 0 (· + r.snd.fst) m1) =
          sumQ m1 + r.snd.fst :=
      fun m1 =>
        sumBy_updAList id _ 0 _ r.snd.fst (fun _ => rfl) rfl m1
    have hFam : ∀ m2 : List (IFam × List (Nat × ℚ)),
        sumBy (fun origs => sumQ origs)
            (updAList r.snd.snd.snd.fst []
              (updAList r.snd.snd.snd.snd 0 (· + r.snd.fst)) m2) =
          sumBy (fun origs => sumQ origs) m2 + r.snd.fst :=
      fun m2 =>
        sumBy_updAList (fun origs => sumQ origs) _ []
          _ r.snd.fst (fun a => hOrig a) rfl m2
    have hClass :
        sumClassification
            (updAList r.snd.snd.fst []
              (updAList r.snd.snd.snd.fst []
                (updAList r.snd.snd.snd.snd 0 (· + r.snd.fst)))
              s.classification) =
          sumClassification s.classification + r.snd.fst := by
      unfold sumClassification
      exact
        sumBy_updAList _ _ [] _ r.snd.fst (fun a => hFam a) rfl
          s.classification
    have hHist :
        sumQ (updAList r.fst 0 (· + r.snd.fst) s.histogram) =
          sumQ s.histogram + r.snd.fst :=
      sumBy_updAList id _ 0 _ r.snd.fst (fun _ => rfl) rfl s.histogram
    simp only [hClass, hHist]
    ring

theorem annotateRunSums (lines : List String) :
    ∀ s : AnnReadings,
      sumClassification (lines.foldl annStep s).classification -
          sumQ (lines.foldl annStep s).histogram =
        sumClassification s.classification - sumQ s.histogram := by
  induction lines with
  | nil => intro s; rfl
  | cons l ls ih =>
    intro s
    rw [List.foldl_cons, ih (annStep s l), annotateStepSums]

theorem annotateRunHistVal (k : String) (lines : List String) :
    ∀ s : AnnReadings,
      (alistFind k (lines.foldl annStep s).histogram).getD 0 =
        (alistFind k s.histogram).getD 0 +
          (((annKeptLines lines).filter (fun e => e.fst = k)).map
            Prod.snd).sum := by
  induction lines with
  | nil => intro s; simp [annKeptLines]
  | cons l ls ih =>
    intro s
    rw [List.foldl_cons, ih (annStep s l)]
    cases hp : parseAnnLine l with
    | none =>
      have hstep : annStep s l = s := by
        unfold annStep
        rw [hp]
      have hkept : annKeptLines (l :: ls) = annKeptLines ls := by
        unfold annKeptLines
        rw [List.filterMap_cons, hp]
        rfl
      rw [hstep, hkept]
    | some r =>
      have hstep : (annStep s l).histogram =
          updAList r.fst 0 (· + r.snd.fst) s.histogram := by
        unfold annStep
        rw [hp]
      have hkept : annKeptLines (l :: ls) =
          (r.fst, r.snd.fst) :: annKeptLines ls := by
        unfold annKeptLines
        rw [List.filterMap_cons, hp]
        rfl
      rw [hstep, hkept, getD_updAList, List.filter_cons]
      by_cases hk : r.fst = k
      · simp [hk]
        try ring
      · simp [hk]
        try ring

theorem annotateRunHistMem (k : String) (lines : List String) :
    ∀ s : AnnReadings,
      ((alistFind k (lines.foldl annStep s).histogram).isSome : Prop) ↔
        ((alistFind k s.histogram).isSome ∨
          k ∈ (annKeptLines lines).map Prod.fst) := by
  induction lines with
  | nil => intro s; simp [annKeptLines]
  | cons l ls ih =>
    intro s
    rw [List.foldl_cons, ih (annStep s l)]
    cases hp : parseAnnLine l with
    | none =>
      have hstep : annStep s l = s := by
        unfold annStep
        rw [hp]
      have hkept : annKeptLines (l :: ls) = annKeptLines ls := by
        unfold annKeptLines
        rw [List.filterMap_cons, hp]
        rfl
      rw [hstep, hkept]
    | some r =>
      have hstep : (annStep s l).histogram =
          updAList r.fst 0 (· + r.snd.fst) s.histogram := by
        unfold annStep
        rw [hp]
      have hkept : annKeptLines (l :: ls) =
          (r.fst, r.snd.fst) :: annKeptLines ls := by
        unfold annKeptLines
        rw [List.filterMap_cons, hp]
        rfl
      rw [hstep, hkept, isSome_updAList]
      simp only [List.map_cons, List.mem_cons]
      tauto

/-! # Claim theorems -/

/-- Claim C1 (amended): for the RAPL and process-stat observers, two
successive triggers at times t1 < t2 leave the reading with
timestamp = t2 and difference = t2 - t1; after the very first trigger
following a reset the difference equals t1 - 0 = t1 (the full uptime),
not zero. -/
theorem observerTimestampDifference (energies : Nat → Option ℚ)
    (t1 t2 : Nat) (s : RaplState) (sc : SysConf) (p1 p2 : ProcStatData)
    (ps : ProcStatState) (h : t1 < t2) :
    ((raplTrigger energies t1 (raplReset s)).readings.timestamp = t1 ∧
      (raplTrigger energies t1 (raplReset s)).readings.difference = t1 ∧
      (raplTrigger energies t2
        (raplTrigger energies t1 (raplReset s))).readings.timestamp = t2 ∧
      (raplTrigger energies t2
        (raplTrigger energies t1 (raplReset s))).readings.difference =
          t2 - t1) ∧
    ((procStatTrigger sc t1 p1 (procStatReset ps)).cpuReadings.timestamp =
        t1 ∧
      (procStatTrigger sc t1 p1 (procStatReset ps)).cpuReadings.difference =
        t1 ∧
      (procStatTrigger sc t2 p2
        (procStatTrigger sc t1 p1 (procStatReset ps))).cpuReadings.timestamp
          = t2 ∧
      (procStatTrigger sc t2 p2
        (procStatTrigger sc t1 p1
          (procStatReset ps))).cpuReadings.difference = t2 - t1) := by
  have hr1 := raplTrigger_stamp energies t1 (raplReset s)
  have hr2 :=
    raplTrigger_stamp energies t2 (raplTrigger energies t1 (raplReset s))
  have hq1 := procStatTrigger_stamp sc t1 p1 (procStatReset ps)
  have hq2 := procStatTrigger_stamp sc t2 p2
    (procStatTrigger sc t1 p1 (procStatReset ps))
  refine ⟨⟨hr1.1, ?_, hr2.1, ?_⟩, ⟨hq1.1, ?_, hq2.1, ?_⟩⟩
  · rw [hr1.2]
    simp [raplReset]
  · rw [hr2.2, hr1.1]
  · rw [hq1.2]
    simp [procStatReset]
  · rw [hq2.2, hq1.1]

/-- Witness for C1's theorem at t1 = 3, t2 = 5. -/
theorem observerTimestampDifferenceWitness :
    (3 : Nat) < 5 ∧
    (raplTrigger (fun _ => some 10) 5
      (raplTrigger (fun _ => some 10) 3
        (raplReset default))).readings.difference = 5 - 3 :=
  ⟨by decide,
    ((observerTimestampDifference (fun _ => some 10) 3 5 default
      ⟨100, 4, 4096⟩ default default default (by decide)).1).2.2.2⟩

/-- Counterexample to claim C1 as stated: the very first RAPL trigger
after a reset, at uptime 5, reports difference 5 (the full uptime), not
zero as the claim requires. -/
theorem firstTriggerDifferenceCex :
    (raplTrigger (fun _ => some 10) 5
      (raplReset default)).readings.difference = 5 ∧ (5 : Nat) ≠ 0 := by
  exact ⟨by decide, by decide⟩

/-- Claim C2 (amended): the header written by the CSV logger is `ID`
followed by the schema field names in the hash map's iteration order — a
permutation of the deduplicated schema names that need not be the schema
order — and `insert_row` writes the auto-incremented id followed by the
stringified cells in exactly the same iteration order as the header, with
an empty cell for a field absent from the row map. -/
theorem csvIterationOrderRow (fields : List (String × FieldType))
    (iter : List String) (vals : List (String × LogValue))
    (h : validIterOrder (mkTable fields) iter) :
    (mkCSVLogger fields iter).out = [csvHeaderLine iter] ∧
    iter.Perm ((mkTable fields).map Prod.fst) ∧
    csvHeaderLine iter = String.intercalate "," ("ID" :: iter) ∧
    (insertRow (mkCSVLogger fields iter) vals).snd.out =
      [csvHeaderLine iter, csvRowLine 0 iter vals] ∧
    (insertRow (mkCSVLogger fields iter) vals).snd.lastId = 1 ∧
    csvRowLine 0 iter vals =
      String.intercalate "," (toString 0 :: iter.map (csvCell vals)) ∧
    (∀ f, alistFind f vals = (Option.none : Option LogValue) →
      csvCell vals f = "") := by
  refine ⟨rfl, h, ?_, ?_, ?_, ?_, ?_⟩
  · unfold csvHeaderLine
    exact joinCommaIntercalate "ID" iter
  · simp [insertRow, mkCSVLogger]
  · simp [insertRow, mkCSVLogger]
  · unfold csvRowLine
    rw [← joinCommaIntercalate, List.map_map]
    rfl
  · intro f hf
    unfold csvCell
    rw [hf]

/-- Witness for C2's theorem on the one-field schema with the identity
iteration order. -/
theorem csvIterationOrderRowWitness :
    validIterOrder (mkTable [("a", FieldType.integer64)]) ["a"] ∧
    csvHeaderLine ["a"] = String.intercalate "," ("ID" :: ["a"]) :=
  ⟨by unfold validIterOrder; decide,
    (csvIterationOrderRow [("a", FieldType.integer64)] ["a"] []
      (by unfold validIterOrder; decide)).2.2.1⟩

/-- Counterexample to claim C2 as stated: for the schema
[(a, Integer64), (b, Integer64)] the iteration order [b, a] is a valid
`unordered_map` traversal, and the header written then is `ID,b,a`, not
the schema-order header `ID,a,b`. -/
theorem csvSchemaOrderCex :
    validIterOrder
      (mkTable [("a", FieldType.integer64), ("b", FieldType.integer64)])
      ["b", "a"] ∧
    (mkCSVLogger [("a", FieldType.integer64), ("b", FieldType.integer64)]
      ["b", "a"]).out = ["ID,b,a"] ∧
    "ID,b,a" ≠ "ID,a,b" := by
  exact ⟨by unfold validIterOrder; decide, by decide, by decide⟩

/-- Claim C3 (amended): a perf-record observer constructed for a pid
already present in the process-wide active-pid set fails with
RESOURCE_BUSY even when the pid is alive; and the destructor leaves the
active-pid set unchanged (only `SetPID` deregisters), so after the first
observer for a pid is destroyed a new construction for that same live pid
still fails with RESOURCE_BUSY instead of succeeding. -/
theorem perfRecordActivePidSet (pid interval frequency : Nat) (nd : Bool)
    (alive : Nat → Bool) (reg : List Nat) (s : PerfRecordState)
    (h0 : pid ≠ 0) (ha : alive pid = true) (hm : pid ∈ reg) :
    mkPerfRecordObserver pid ObsScope.process interval frequency nd alive
        reg =
      Except.error ⟨StatusKind.resourceBusy,
        "The PID is already being tracked by perf record"⟩ ∧
    perfRecordDestruct s reg = reg := by
  constructor
  · simp [mkPerfRecordObserver, h0, ha, hm]
  · rfl

/-- Witness for C3's theorem at pid 42 with registry [42]. -/
theorem perfRecordActivePidSetWitness :
    ((42 : Nat) ≠ 0 ∧ (fun p : Nat => p == 42) 42 = true ∧
      (42 : Nat) ∈ [42]) ∧
    mkPerfRecordObserver 42 ObsScope.process 1000 1000 false
        (fun p => p == 42) [42] =
      Except.error ⟨StatusKind.resourceBusy,
        "The PID is already being tracked by perf record"⟩ :=
  ⟨⟨by decide, by decide, by decide⟩,
    (perfRecordActivePidSet 42 1000 1000 false (fun p => p == 42) [42]
      default (by decide) (by decide) (by decide)).1⟩

/-- Counterexample to claim C3 as stated: constructing for live pid 42
registers it; the destructor leaves the registry unchanged; a new
construction for the same live pid then fails with RESOURCE_BUSY rather
than succeeding. -/
theorem perfRecordDropCex :
    (mkPerfRecordObserver 42 ObsScope.process 1000 1000 false
        (fun p => p == 42) []).map Prod.snd = Except.ok [42] ∧
    perfRecordDestruct default [42] = [42] ∧
    (fun p : Nat => p == 42) 42 = true ∧
    mkPerfRecordObserver 42 ObsScope.process 1000 1000 false
        (fun p => p == 42) [42] =
      Except.error ⟨StatusKind.resourceBusy,
        "The PID is already being tracked by perf record"⟩ := by
  exact ⟨rfl, rfl, by decide, rfl⟩

/-- Claim C4 (amended): the perf-annotate parser keeps exactly those
lines on which stream float extraction of the leading characters succeeds
without consuming the whole line and whose extracted percent strictly
exceeds the threshold 0.01; over those kept lines the histogram is exact:
the value at any key is the sum of the percents of the kept lines
producing that key, and a key is present exactly when some kept line
produces it. -/
theorem annHistogramExact (lines : List String) (k : String) :
    (alistFind k (annParseResults lines).histogram).getD 0 =
      (((annKeptLines lines).filter (fun e => e.fst = k)).map
        Prod.snd).sum ∧
    (((alistFind k (annParseResults lines).histogram).isSome : Prop) ↔
      k ∈ (annKeptLines lines).map Prod.fst) := by
  constructor
  · have h :=
      annotateRunHistVal k lines { histogram := [], classification := [] }
    simpa [annParseResults, alistFind] using h
  · have h :=
      annotateRunHistMem k lines { histogram := [], classification := [] }
    simpa [annParseResults, alistFind] using h

/-- Counterexample to claim C4 as stated: on the line
`12.5z: 0x100 mov %rax,%rbx` the leading token `12.5z:` does not parse as
a number, so by the claim the line is skipped and the histogram stays
empty; the code, however, extracts 12.5 from the stream, keeps the line
and records key `mov_rr`. -/
theorem annLeadingTokenCex :
    specKeptLine "12.5z: 0x100 mov %rax,%rbx" = false ∧
    (annParseResults ["12.5z: 0x100 mov %rax,%rbx"]).histogram.map
      Prod.fst = ["mov_rr"] := by
  exact ⟨by decide, by decide⟩

/-- Claim C5: after every parse, the sum over all leaves of the
three-level classification map equals the sum over all values of the
histogram (exact in the rational model). -/
theorem annSumsBalanced (lines : List String) :
    sumClassification (annParseResults lines).classification =
      sumQ (annParseResults lines).histogram := by
  have h1 :
      sumClassification (annParseResults lines).classification -
          sumQ (annParseResults lines).histogram = 0 := by
    unfold annParseResults
    rw [annotateRunSums lines { histogram := [], classification := [] }]
    simp [sumClassification, sumQ, sumBy]
  exact sub_eq_zero.mp h1

/-- Claim C6 (amended): starting the system collector while started
returns RESOURCE_BUSY whose integer code is 8, and stopping it while not
started returns NOT_FOUND whose integer code is 9; the closed Status kind
set of `status.hpp` ends at ACCESS_DENIED (code 13) and contains no
RUNNING or STOPPED members. -/
theorem systemThreadStatusCodes (s : AnalyserState) :
    (s.sysThread = true →
      startSystemThread s =
        (⟨StatusKind.resourceBusy, "The thread has already started"⟩, s) ∧
      StatusKind.resourceBusy.code = 8) ∧
    (s.sysThread = false →
      stopSystemThread s =
        (⟨StatusKind.notFound, "The thread was not running"⟩, s) ∧
      StatusKind.notFound.code = 9) ∧
    (∀ k : StatusKind, k.code ≤ 13) := by
  refine ⟨fun h => ⟨?_, rfl⟩, fun h => ⟨?_, rfl⟩, fun k => ?_⟩
  · simp [startSystemThread, h]
  · simp [stopSystemThread, h]
  · cases k <;> simp [StatusKind.code]

/-- Witness for C6's theorem on a started and a fresh analyser. -/
theorem systemThreadStatusCodesWitness :
    (startSystemThread ⟨true⟩ =
        (⟨StatusKind.resourceBusy, "The thread has already started"⟩,
          ⟨true⟩) ∧
      StatusKind.resourceBusy.code = 8) ∧
    (stopSystemThread ⟨false⟩ =
        (⟨StatusKind.notFound, "The thread was not running"⟩, ⟨false⟩) ∧
      StatusKind.notFound.code = 9) :=
  ⟨(systemThreadStatusCodes ⟨true⟩).1 rfl,
    (systemThreadStatusCodes ⟨false⟩).2.1 rfl⟩

/-- Counterexample to claim C6 as stated: the double-start status code is
not 9 and the stop-without-start status code is not 10 under the Status
enumeration of `status.hpp` (they are 8 and 9). -/
theorem statusCodesCex :
    (startSystemThread (startSystemThread ⟨false⟩).snd).fst.kind.code ≠ 9 ∧
    (stopSystemThread ⟨false⟩).fst.kind.code ≠ 10 := by
  exact ⟨by decide, by decide⟩

/-- Claim C7 (amended): when the info command output contains no
`Rated Watts` line (zero PSUs found), `GetInfo` reports NOT_FOUND but the
observer constructor rethrows the failure as ACCESS_DENIED, so
construction fails with ACCESS_DENIED, not NOT_FOUND. -/
theorem ipmiZeroPsuConstruction (lines : List String)
    (h : ∀ l ∈ lines, strContains l "Rated Watts" = false) :
    (ipmiGetInfo lines).fst.kind = StatusKind.notFound ∧
    mkIPMIMeterObserver ObsScope.system lines =
      Except.error ⟨StatusKind.accessDenied,
        "Cannot get info from IPMI"⟩ := by
  have h0 : ipmiScanInfo lines = { numPsus := 0, maxPower := [] } :=
    ipmiScanInfoNoPsu lines h
  constructor
  · simp [ipmiGetInfo, h0]
  · simp [mkIPMIMeterObserver, ipmiGetInfo, h0]

/-- Witness for C7's theorem on a two-line PSU-free info output. -/
theorem ipmiZeroPsuConstructionWitness :
    (∀ l ∈ ["Power Supplies   : 0", "done"],
      strContains l "Rated Watts" = false) ∧
    mkIPMIMeterObserver ObsScope.system ["Power Supplies   : 0", "done"] =
      Except.error ⟨StatusKind.accessDenied,
        "Cannot get info from IPMI"⟩ :=
  ⟨by decide,
    (ipmiZeroPsuConstruction ["Power Supplies   : 0", "done"]
      (by decide)).2⟩

/-- Counterexample to claim C7 as stated: on an info output with zero
PSUs, construction fails with ACCESS_DENIED, which differs from the
NOT_FOUND the claim requires. -/
theorem ipmiZeroPsuCex :
    mkIPMIMeterObserver ObsScope.system ["no power supplies here"] =
      Except.error ⟨StatusKind.accessDenied,
        "Cannot get info from IPMI"⟩ ∧
    StatusKind.accessDenied ≠ StatusKind.notFound := by
  exact ⟨rfl, by decide⟩

/-- Claim C8 (amended): a process-scope /proc stat trigger that parses a
process in stopped-in-trap state T or dead state X performs no update of
the CPU usage and RAM fields: all of them keep the values they had before
the trigger (only the timestamps advance). The zombie state Z is not
among the skipped states. -/
theorem procStatStoppedDeadNoUpdate (sc : SysConf) (uptime : Nat)
    (parsed : ProcStatData) (s : ProcStatState)
    (h : parsed.state = 'T' ∨ parsed.state = 'X') :
    (procStatTrigger sc uptime parsed s).cpuReadings.overallUsage =
        s.cpuReadings.overallUsage ∧
    (procStatTrigger sc uptime parsed s).cpuReadings.coreUsage =
        s.cpuReadings.coreUsage ∧
    (procStatTrigger sc uptime parsed s).cpuReadings.corePower =
        s.cpuReadings.corePower ∧
    (procStatTrigger sc uptime parsed s).cpuReadings.overallPower =
        s.cpuReadings.overallPower ∧
    (procStatTrigger sc uptime parsed s).ramReadings.overallUsage =
        s.ramReadings.overallUsage ∧
    (procStatTrigger sc uptime parsed s).ramReadings.totalMemoryUsage =
        s.ramReadings.totalMemoryUsage ∧
    (procStatTrigger sc uptime parsed s).ramReadings.swapUsage =
        s.ramReadings.swapUsage ∧
    (procStatTrigger sc uptime parsed s).ramReadings.overallPower =
        s.ramReadings.overallPower ∧
    (procStatTrigger sc uptime parsed s).ramReadings.overallBw =
        s.ramReadings.overallBw := by
  unfold procStatTrigger translateReadings
  simp [h]

/-- Witness for C8's theorem on a stopped (T-state) process. -/
theorem procStatStoppedDeadNoUpdateWitness :
    (({ (default : ProcStatData) with state := 'T' }).state = 'T' ∨
      ({ (default : ProcStatData) with state := 'T' }).state = 'X') ∧
    (procStatTrigger ⟨100, 4, 4096⟩ 100
        { (default : ProcStatData) with state := 'T' }
        default).cpuReadings.overallUsage =
      (default : ProcStatState).cpuReadings.overallUsage :=
  ⟨Or.inl rfl,
    (procStatStoppedDeadNoUpdate ⟨100, 4, 4096⟩ 100
      { (default : ProcStatData) with state := 'T' } default
      (Or.inl rfl)).1⟩

/-- Counterexample to claim C8 as stated: a zombie (Z-state) process does
get its CPU usage recomputed by the trigger — the state check in the code
skips T and X, not Z. -/
theorem procStatZombieCex :
    ({ state := 'Z', utime := 30, stime := 0, cutime := 0, cstime := 0,
        starttime := 0, vsize := 0, rss := 0, total := 0, active := 0 } :
      ProcStatData).state = 'Z' ∧
    ({ procData :=
        { state := 'R', utime := 0, stime := 0, cutime := 0, cstime := 0,
          starttime := 0, vsize := 0, rss := 0, total := 50, active := 10 }
       cpuReadings :=
        { timestamp := 0, difference := 0, overallUsage := 0,
          overallPower := 0, coreUsage := [], corePower := [] }
       ramReadings :=
        { timestamp := 0, difference := 0, overallUsage := 0,
          totalMemoryUsage := 0, swapUsage := 0, overallPower := 0,
          overallBw := 0 } } : ProcStatState).cpuReadings.overallUsage =
      0 ∧
    (procStatTrigger ⟨100, 4, 4096⟩ 100
        { state := 'Z', utime := 30, stime := 0, cutime := 0, cstime := 0,
          starttime := 0, vsize := 0, rss := 0, total := 0, active := 0 }
        { procData :=
            { state := 'R', utime := 0, stime := 0, cutime := 0,
              cstime := 0, starttime := 0, vsize := 0, rss := 0,
              total := 50, active := 10 }
          cpuReadings :=
            { timestamp := 0, difference := 0, overallUsage := 0,
              overallPower := 0, coreUsage := [], corePower := [] }
          ramReadings :=
            { timestamp := 0, difference := 0, overallUsage := 0,
              totalMemoryUsage := 0, swapUsage := 0, overallPower := 0,
              overallBw := 0 } }).cpuReadings.overallUsage ≠ (0 : ℚ) := by
  refine ⟨rfl, rfl, ?_⟩
  simp [procStatTrigger, translateReadings]
  try norm_num

/-- Claim C9 (amended): `insert_row` returns LOGGER_CANNOT_INSERT when
the file is not open; otherwise it returns OK whose message is non-empty
exactly when the number of entries in the row map differs from the number
of schema fields — so a row map of the right size whose keys all lie
outside the schema yields an empty message even though every schema field
is absent. -/
theorem csvInsertRowStatus (s : CSVLoggerState)
    (vals : List (String × LogValue)) :
    (s.fileOpen = false →
      insertRow s vals =
        (⟨StatusKind.loggerCannotInsert,
          "Cannot insert since the file is not opened"⟩, s)) ∧
    (s.fileOpen = true →
      (insertRow s vals).fst.kind = StatusKind.ok ∧
      ((insertRow s vals).fst.msg ≠ "" ↔
        vals.length ≠ s.table.length)) := by
  constructor
  · intro h
    simp [insertRow, h]
  · intro h
    by_cases hl : vals.length = s.table.length <;>
      simp [insertRow, h, hl, EStatus.okStatus]

/-- Witness for C9's theorem on a closed-file logger and an open one. -/
theorem csvInsertRowStatusWitness :
    insertRow
        { table := [], iter := [], fileOpen := false, lastId := 0,
          out := [] } [] =
      (⟨StatusKind.loggerCannotInsert,
        "Cannot insert since the file is not opened"⟩,
        { table := [], iter := [], fileOpen := false, lastId := 0,
          out := [] }) ∧
    (insertRow (mkCSVLogger [("a", FieldType.integer64)] ["a"])
        []).fst.kind = StatusKind.ok :=
  ⟨(csvInsertRowStatus
      { table := [], iter := [], fileOpen := false, lastId := 0,
        out := [] } []).1 rfl,
    ((csvInsertRowStatus (mkCSVLogger [("a", FieldType.integer64)] ["a"])
      []).2 rfl).1⟩

/-- Counterexample to claim C9 as stated: with schema fields a and b and
the row map containing only the alien keys c and d, every schema field is
absent from the row, yet the returned OK status carries an empty message
because the sizes coincide. -/
theorem csvInsertRowMessageCex :
    (insertRow
        (mkCSVLogger [("a", FieldType.integer64), ("b", FieldType.integer64)]
          ["a", "b"])
        [("c", LogValue.int64 1), ("d", LogValue.int64 2)]).fst.msg = "" ∧
    alistFind "a"
        [("c", LogValue.int64 1), ("d", LogValue.int64 2)] =
      (Option.none : Option LogValue) ∧
    alistFind "a"
        (mkCSVLogger [("a", FieldType.integer64), ("b", FieldType.integer64)]
          ["a", "b"]).table = some FieldType.integer64 := by
  exact ⟨by decide, by decide, by decide⟩

/-- Claim C10: a perf-record observer constructed with pid 0 and PROCESS
scope is created successfully — for every liveness environment, so no
liveness check is consulted — leaving the process-wide active-pid set
unchanged and creating neither a temporary directory nor a command; and
any trigger while the pid is 0 returns NOT_READY and leaves the whole
observer state, its reading included, unchanged. -/
theorem perfRecordZeroPid (interval frequency : Nat) (nd : Bool)
    (alive : Nat → Bool) (reg : List Nat) (time : Nat)
    (s : PerfRecordState) (hs : s.pid = 0) :
    (∃ st,
      mkPerfRecordObserver 0 ObsScope.process interval frequency nd alive
          reg = Except.ok (st, reg) ∧
      st.tmpFolderPath = Option.none ∧ st.perfCmd = Option.none ∧
      st.pid = 0) ∧
    perfRecordTrigger alive time s =
      (⟨StatusKind.notReady, "Invalid PID. Assign one"⟩, s) := by
  constructor
  · exact ⟨_, rfl, rfl, rfl, rfl⟩
  · simp [perfRecordTrigger, hs]

/-- Witness for C10's theorem on the default (pid 0) observer state. -/
theorem perfRecordZeroPidWitness :
    (default : PerfRecordState).pid = 0 ∧
    perfRecordTrigger (fun _ => true) 7 default =
      (⟨StatusKind.notReady, "Invalid PID. Assign one"⟩, default) :=
  ⟨rfl,
    (perfRecordZeroPid 0 0 false (fun _ => true) [] 7 default rfl).2⟩

end Efimon
